import Mathlib

/-
Shallow embedding of the Traffic Signal Coordinator core
(src/src/agents/signal_coordinator_agent.py).

Modelling conventions:
* Python `float` arithmetic is modelled exactly over `ℚ`.
* Python `int(x)` (truncation towards zero) is `pyInt`.
* Python `round(x, 1)` (round-half-to-even at one decimal) is `pyRound1`.
* Python dicts keyed by strings are association lists (`List (String × _)`)
  with `dictGet` / `dictSet` preserving insertion order and overwriting the
  first occurrence of a key, as Python dict assignment does.
* The `signals` dict of an intersection always holds exactly the four keys
  north/south/east/west (it is created that way and never changed
  structurally), so it is modelled as a four-field structure indexed by a
  `Direction` enum.
* Fields that no operation of this core reads or writes after construction
  (`phase_start_time`, `connected_roads`, `signal_timing_history`,
  timestamps in returned plans) are omitted.
* Where Python would raise `ZeroDivisionError` (float division by zero in
  `coordinate_green_wave`), the embedding returns the explicit outcome
  `GWOutcome.raised`.
-/

/-- Python `int()` on a float: truncation towards zero. -/
def pyInt (x : ℚ) : ℤ :=
  if x < 0 then ⌈x⌉ else ⌊x⌋

/-- Python `round()` to an integer: round half to even. -/
def pyRoundHalfEven (x : ℚ) : ℤ :=
  let f := ⌊x⌋
  let r := x - (f : ℚ)
  if r < 1/2 then f
  else if 1/2 < r then f + 1
  else if f % 2 = 0 then f else f + 1

/-- Python `round(x, 1)`: one decimal digit, half to even. -/
def pyRound1 (x : ℚ) : ℚ :=
  (pyRoundHalfEven (x * 10) : ℚ) / 10

/-- Lookup in a Python dict modelled as an association list. -/
def dictGet {α : Type} : List (String × α) → String → Option α
  | [], _ => none
  | (k', v) :: rest, k => if k = k' then some v else dictGet rest k

/-- Python dict assignment `d[k] = v`: overwrite the first (unique)
occurrence in place, else append. -/
def dictSet {α : Type} : List (String × α) → String → α → List (String × α)
  | [], k, v => [(k, v)]
  | (k', v') :: rest, k, v =>
    if k = k' then (k, v) :: rest else (k', v') :: dictSet rest k v

/-- The four approach directions of an intersection. -/
inductive Direction : Type where
  | north | south | east | west
deriving DecidableEq

/-- Signal phases (class SignalPhase). -/
inductive SignalPhase : Type where
  | red | yellow | green
deriving DecidableEq

/-- One traffic signal (dataclass TrafficSignal). -/
structure TrafficSignal where
  signal_id : String
  intersection_name : String
  coordinates : ℚ × ℚ
  cycle_time : ℤ
  red_time : ℤ
  green_time : ℤ
  yellow_time : ℤ
  all_red_time : ℤ
  current_phase : SignalPhase
  time_in_phase : ℤ
  min_green : ℤ
  max_green : ℤ
  adaptive_offset : ℤ
deriving DecidableEq

/-- The `signals` dict of an intersection: exactly four direction keys. -/
structure Signals where
  north : TrafficSignal
  south : TrafficSignal
  east : TrafficSignal
  west : TrafficSignal
deriving DecidableEq

def Signals.get (s : Signals) : Direction → TrafficSignal
  | Direction.north => s.north
  | Direction.south => s.south
  | Direction.east => s.east
  | Direction.west => s.west

/-- Write an offset to every direction's `adaptive_offset`
(the inner loop of `coordinate_green_wave`). -/
def Signals.setAllAdaptiveOffsets (s : Signals) (o : ℤ) : Signals where
  north := { s.north with adaptive_offset := o }
  south := { s.south with adaptive_offset := o }
  east := { s.east with adaptive_offset := o }
  west := { s.west with adaptive_offset := o }

/-- One intersection (dataclass Intersection). -/
structure Intersection where
  intersection_id : String
  name : String
  coordinates : ℚ × ℚ
  signals : Signals
  queue_length_north : ℤ
  queue_length_south : ℤ
  queue_length_east : ℤ
  queue_length_west : ℤ
  avg_speed : ℚ
  avg_congestion : ℚ
  local_aqi : ℤ
  priority_level : String
deriving DecidableEq

/-- Coordinator state (class TrafficSignalCoordinator). -/
structure TrafficSignalCoordinator where
  city_name : String
  intersections : List (String × Intersection)
  coordination_offsets : List (String × ℤ)
  optimization_mode : String
deriving DecidableEq

/-- The `queues` sub-dict of a traffic-data payload; each key may be absent
(`queues.get(direction, 0)`). -/
structure QueueDict where
  north : Option ℤ
  south : Option ℤ
  east : Option ℤ
  west : Option ℤ
deriving DecidableEq

def emptyQueues : QueueDict := ⟨none, none, none, none⟩

/-- A `traffic_data` payload; each key may be absent
(`traffic_data.get(key, default)`). -/
structure TrafficData where
  queues : Option QueueDict
  avg_speed : Option ℚ
  congestion : Option ℚ
deriving DecidableEq

def TrafficData.qNorth (td : TrafficData) : ℤ := ((td.queues.getD emptyQueues).north).getD 0
def TrafficData.qSouth (td : TrafficData) : ℤ := ((td.queues.getD emptyQueues).south).getD 0
def TrafficData.qEast (td : TrafficData) : ℤ := ((td.queues.getD emptyQueues).east).getD 0
def TrafficData.qWest (td : TrafficData) : ℤ := ((td.queues.getD emptyQueues).west).getD 0

/-- Method `_determine_priority` (lines 221-231). -/
def determine_priority (congestion : ℚ) (aqi : ℤ) (max_queue : ℤ) : String :=
  if congestion > 70 ∨ aqi > 150 ∨ max_queue > 50 then "critical"
  else if congestion > 50 ∨ aqi > 100 ∨ max_queue > 30 then "high"
  else if congestion > 30 ∨ aqi > 50 then "normal"
  else "low"

/-- Method `update_intersection_data` (lines 178-219).  Returns the new
coordinator state paired with the boolean result. -/
def update_intersection_data (c : TrafficSignalCoordinator) (intersection_id : String)
    (traffic_data : TrafficData) (pollution_level : ℤ) :
    TrafficSignalCoordinator × Bool :=
  match dictGet c.intersections intersection_id with
  | none => (c, false)
  | some intersection =>
    let qn := traffic_data.qNorth
    let qs := traffic_data.qSouth
    let qe := traffic_data.qEast
    let qw := traffic_data.qWest
    let congestion := traffic_data.congestion.getD 50
    let intersection' : Intersection :=
      { intersection with
        queue_length_north := qn
        queue_length_south := qs
        queue_length_east := qe
        queue_length_west := qw
        avg_speed := traffic_data.avg_speed.getD 30
        avg_congestion := congestion
        local_aqi := pollution_level
        priority_level :=
          determine_priority congestion pollution_level (max (max (max qn qs) qe) qw) }
    ({ c with intersections := dictSet c.intersections intersection_id intersection' },
     true)

/-- Per-direction timing record built by `optimize_signal_timing`
(the `signal_timings[direction]` dict, lines 319-327). -/
structure DirectionTiming where
  green_time : ℤ
  red_time : ℤ
  yellow_time : ℤ
  all_red_time : ℤ
  cycle_time : ℤ
  queue_length : ℤ
  priority : String
deriving DecidableEq

/-- The `signal_timings` dict of a plan: exactly four direction keys. -/
structure DirectionTimings where
  north : DirectionTiming
  south : DirectionTiming
  east : DirectionTiming
  west : DirectionTiming
deriving DecidableEq

def DirectionTimings.get (t : DirectionTimings) : Direction → DirectionTiming
  | Direction.north => t.north
  | Direction.south => t.south
  | Direction.east => t.east
  | Direction.west => t.west

/-- The dict returned by a successful `optimize_signal_timing` call
(lines 334-342, timestamp omitted). -/
structure OptimizationPlan where
  intersection_id : String
  signal_timings : DirectionTimings
  strategy : String
  emission_reduction : ℤ
  flow_improvement : ℤ
  urgency : String
deriving DecidableEq

/-- The clamped denominator `total_queue = max(1, sum(queues))` (line 311). -/
def totalQueueOf (intersection : Intersection) : ℤ :=
  max 1 (intersection.queue_length_north + intersection.queue_length_south +
    intersection.queue_length_east + intersection.queue_length_west)

/-- Strategy selection of `optimize_signal_timing` (lines 276-283). -/
def strategyOf (intersection : Intersection) : String :=
  if intersection.local_aqi > 150 ∧ intersection.avg_congestion > 60 then
    "emission_priority"
  else if intersection.avg_congestion > 60 then "flow_priority"
  else if intersection.local_aqi > 100 then "emission_priority"
  else "balanced"

/-- Per-strategy constants `(base_green, base_red, emission_reduction,
flow_improvement)` (lines 289-308); `base_red` is set but never used, and
`base_cycle` is 120 in every branch. -/
def paramsOf (strategy : String) : ℤ × ℤ × ℤ × ℤ :=
  if strategy = "emission_priority" then (70, 40, 18, -5)
  else if strategy = "flow_priority" then (60, 50, 5, 15)
  else (50, 60, 10, 8)

/-- Per-direction allocation of `optimize_signal_timing`
(lines 314-327, with `base_cycle = 120`). -/
def mkTiming (base_green total_queue q : ℤ) : DirectionTiming :=
  let queue_proportion : ℚ := (q : ℚ) / (total_queue : ℚ)
  let adjusted_green : ℚ :=
    max 15 (min 80 ((base_green : ℚ) * (1/2 + queue_proportion)))
  let adjusted_red : ℚ := (120 : ℚ) - adjusted_green - 5
  { green_time := pyInt adjusted_green
    red_time := pyInt adjusted_red
    yellow_time := 5
    all_red_time := 3
    cycle_time := 120
    queue_length := q
    priority := if queue_proportion > 0.35 then "high" else "normal" }

/-- Write-back of one direction's timing to its stored signal
(lines 329-332). -/
def updSig (s : TrafficSignal) (dt : DirectionTiming) : TrafficSignal :=
  { s with green_time := dt.green_time, red_time := dt.red_time,
           cycle_time := dt.cycle_time }

/-- Per-direction queue length accessor (`queues[i]`, lines 266-271). -/
def Intersection.queueOf (i : Intersection) : Direction → ℤ
  | Direction.north => i.queue_length_north
  | Direction.south => i.queue_length_south
  | Direction.east => i.queue_length_east
  | Direction.west => i.queue_length_west

/-- The four timing records computed by `optimize_signal_timing`
(the `signal_timings` dict, lines 312-327). -/
def optimizedTimings (intersection : Intersection) : DirectionTimings :=
  let base_green := (paramsOf (strategyOf intersection)).1
  let total_queue := totalQueueOf intersection
  { north := mkTiming base_green total_queue intersection.queue_length_north
    south := mkTiming base_green total_queue intersection.queue_length_south
    east := mkTiming base_green total_queue intersection.queue_length_east
    west := mkTiming base_green total_queue intersection.queue_length_west }

/-- The in-place signal update of `optimize_signal_timing` (lines 329-332). -/
def optimizedIntersection (intersection : Intersection) : Intersection :=
  { intersection with
    signals :=
      { north := updSig intersection.signals.north (optimizedTimings intersection).north
        south := updSig intersection.signals.south (optimizedTimings intersection).south
        east := updSig intersection.signals.east (optimizedTimings intersection).east
        west := updSig intersection.signals.west (optimizedTimings intersection).west } }

/-- The dict returned on success (lines 334-342, timestamp omitted). -/
def optimizedPlan (intersection_id : String) (intersection : Intersection) :
    OptimizationPlan :=
  { intersection_id := intersection_id
    signal_timings := optimizedTimings intersection
    strategy := strategyOf intersection
    emission_reduction := (paramsOf (strategyOf intersection)).2.2.1
    flow_improvement := (paramsOf (strategyOf intersection)).2.2.2
    urgency := intersection.priority_level }

/-- Body of `optimize_signal_timing` once the intersection was found
(lines 263-342). -/
def optimizeKnown (c : TrafficSignalCoordinator) (intersection_id : String)
    (intersection : Intersection) :
    TrafficSignalCoordinator × Except String OptimizationPlan :=
  ({ c with
     intersections :=
       dictSet c.intersections intersection_id (optimizedIntersection intersection) },
   Except.ok (optimizedPlan intersection_id intersection))

/-- Method `optimize_signal_timing` (lines 233-342).  Returns the new
coordinator state paired with either the `⟨'error': ...⟩` dict or the plan. -/
def optimize_signal_timing (c : TrafficSignalCoordinator) (intersection_id : String) :
    TrafficSignalCoordinator × Except String OptimizationPlan :=
  match dictGet c.intersections intersection_id with
  | none => (c, Except.error "Intersection not found")
  | some intersection => optimizeKnown c intersection_id intersection

/-- The dict returned by a successful `coordinate_green_wave` call
(lines 407-418, timestamp omitted). -/
structure GreenWavePlan where
  corridor : String
  intersections : List String
  offsets_seconds : List (String × ℤ)
  target_speed_kmph : ℚ
  expected_travel_time_minutes : ℚ
  total_corridor_distance_km : ℚ
  stops_reduced_percent : ℚ
  emissions_reduced_percent : ℚ
  coordination_status : String
deriving DecidableEq

/-- Outcome of `coordinate_green_wave`: the `⟨'error': ...⟩` dict, an
uncaught `ZeroDivisionError`, or the plan dict. -/
inductive GWOutcome : Type where
  | errorDict (msg : String)
  | raised
  | ok (plan : GreenWavePlan)
deriving DecidableEq

def GWOutcome.planOf : GWOutcome → Option GreenWavePlan
  | GWOutcome.ok p => some p
  | _ => none

def GWOutcome.isOk : GWOutcome → Bool
  | GWOutcome.ok _ => true
  | _ => false

/-- The `for i, int_id in enumerate(intersection_ids)` loop of
`coordinate_green_wave` (lines 380-398).  State threaded through the loop:
coordinator, the local `offsets` dict, `total_stops_reduced`,
`total_emissions_reduced`. -/
def gwLoop (t : ℚ) :
    List String → ℕ → TrafficSignalCoordinator → List (String × ℤ) → ℤ → ℤ →
    TrafficSignalCoordinator × List (String × ℤ) × ℤ × ℤ
  | [], _, c, offs, st, em => (c, offs, st, em)
  | int_id :: rest, i, c, offs, st, em =>
    match dictGet c.intersections int_id with
    | none => gwLoop t rest (i + 1) c offs st em
    | some intersection =>
      let offset : ℤ := pyInt ((i : ℚ) * t)
      let intersection' : Intersection :=
        { intersection with
          signals := intersection.signals.setAllAdaptiveOffsets offset }
      let c' : TrafficSignalCoordinator :=
        { c with
          intersections := dictSet c.intersections int_id intersection'
          coordination_offsets := dictSet c.coordination_offsets int_id offset }
      gwLoop t rest (i + 1) c' (dictSet offs int_id offset) (st + 12) (em + 8)

/-- Method `coordinate_green_wave` (lines 344-418).  Python raises
`ZeroDivisionError` at `(distance_between / target_speed) * 60` when
`target_speed` is zero; the embedding returns `GWOutcome.raised` there. -/
def coordinate_green_wave (c : TrafficSignalCoordinator) (intersection_ids : List String)
    (road_name : String) (target_speed : ℚ) :
    TrafficSignalCoordinator × GWOutcome :=
  if intersection_ids.length < 2 then
    (c, GWOutcome.errorDict "Need at least 2 intersections for green wave")
  else if target_speed = 0 then
    (c, GWOutcome.raised)
  else
    let distance_between : ℚ := 1
    let travel_time_per_intersection : ℚ := (distance_between / target_speed) * 60
    let r := gwLoop travel_time_per_intersection intersection_ids 0 c [] 0 0
    let avg_stops_reduced : ℚ := (r.2.2.1 : ℚ) / (intersection_ids.length : ℚ)
    let avg_emissions_reduced : ℚ := (r.2.2.2 : ℚ) / (intersection_ids.length : ℚ)
    let total_distance : ℚ := distance_between * ((intersection_ids.length : ℚ) - 1)
    let travel_time_minutes : ℚ := (total_distance / target_speed) * 60
    (r.1,
     GWOutcome.ok
       { corridor := road_name
         intersections := intersection_ids
         offsets_seconds := r.2.1
         target_speed_kmph := target_speed
         expected_travel_time_minutes := pyRound1 travel_time_minutes
         total_corridor_distance_km := pyRound1 total_distance
         stops_reduced_percent := pyRound1 avg_stops_reduced
         emissions_reduced_percent := pyRound1 avg_emissions_reduced
         coordination_status := "active" })

/-- A conflict finding (one of the dicts appended by `detect_conflicts`);
keys absent from a given finding are `none`. -/
structure Finding where
  type : String
  direction : Option String
  severity : String
  queue_length : Option ℤ
  capacity : Option ℤ
  congestion_percent : Option ℚ
  aqi : Option ℤ
  remediation : String
deriving DecidableEq

/-- The queue-overflow finding (lines 448-455). -/
def overflowFinding (direction : String) (queue : ℤ) : Finding :=
  { type := "queue_overflow"
    direction := some direction
    severity := if queue > 150 then "critical" else "high"
    queue_length := some queue
    capacity := some 100
    congestion_percent := none
    aqi := none
    remediation := "Increase green time for this direction" }

/-- Method `detect_conflicts` (lines 420-484).  The method never mutates the
coordinator; the returned pair makes that explicit. -/
def detect_conflicts (c : TrafficSignalCoordinator) (intersection_id : String) :
    TrafficSignalCoordinator × List Finding :=
  match dictGet c.intersections intersection_id with
  | none => (c, [])
  | some intersection =>
    let queueChecks : List (String × ℤ) :=
      [("north", intersection.queue_length_north),
       ("south", intersection.queue_length_south),
       ("east", intersection.queue_length_east),
       ("west", intersection.queue_length_west)]
    let overflow : List Finding :=
      (queueChecks.filter (fun p => p.2 > 100)).map (fun p => overflowFinding p.1 p.2)
    let opposing : List Finding :=
      if (intersection.queue_length_north > 20 ∧ intersection.queue_length_south > 20) ∨
         (intersection.queue_length_east > 20 ∧ intersection.queue_length_west > 20) then
        [{ type := "opposing_flows_blocked"
           direction := none
           severity := "high"
           queue_length := none
           capacity := none
           congestion_percent := none
           aqi := none
           remediation := "Distribute green time between opposing directions" }]
      else []
    let congested : List Finding :=
      if intersection.avg_congestion > 70 then
        [{ type := "high_congestion"
           direction := none
           severity := "high"
           queue_length := none
           capacity := none
           congestion_percent := some intersection.avg_congestion
           aqi := none
           remediation := "Implement emission priority strategy" }]
      else []
    let airQuality : List Finding :=
      if intersection.local_aqi > 200 then
        [{ type := "air_quality_emergency"
           direction := none
           severity := "critical"
           queue_length := none
           capacity := none
           congestion_percent := none
           aqi := some intersection.local_aqi
           remediation := "Switch to emission priority mode - maximize green time" }]
      else []
    (c, overflow ++ opposing ++ congested ++ airQuality)

/-- A signal with the dataclass defaults (lines 42-59), as built by
`_initialize_default_intersections` (lines 163-174). -/
def defaultSignal (sid iname : String) (coords : ℚ × ℚ) : TrafficSignal :=
  { signal_id := sid
    intersection_name := iname
    coordinates := coords
    cycle_time := 120
    red_time := 60
    green_time := 50
    yellow_time := 5
    all_red_time := 5
    current_phase := SignalPhase.red
    time_in_phase := 0
    min_green := 15
    max_green := 80
    adaptive_offset := 0 }

/-- One default intersection with its four signals (lines 155-176). -/
def mkDefaultIntersection (id name : String) (coords : ℚ × ℚ) : Intersection :=
  { intersection_id := id
    name := name
    coordinates := coords
    signals :=
      { north := defaultSignal (id ++ "_NORTH") name coords
        south := defaultSignal (id ++ "_SOUTH") name coords
        east := defaultSignal (id ++ "_EAST") name coords
        west := defaultSignal (id ++ "_WEST") name coords }
    queue_length_north := 0
    queue_length_south := 0
    queue_length_east := 0
    queue_length_west := 0
    avg_speed := 30
    avg_congestion := 50
    local_aqi := 100
    priority_level := "normal" }

/-- The coordinator as built by `__init__` /
`_initialize_default_intersections` (lines 102-176). -/
def initialCoordinator : TrafficSignalCoordinator :=
  { city_name := "bengaluru"
    intersections :=
      [("INT_001", mkDefaultIntersection "INT_001" "MG Road - Brigade Road" (13.0351, 80.2664)),
       ("INT_002", mkDefaultIntersection "INT_002" "Koramangala - Indiranagar" (13.0353, 80.2788)),
       ("INT_003", mkDefaultIntersection "INT_003" "Connaught Place - Residency Road" (13.0309, 80.2614)),
       ("INT_004", mkDefaultIntersection "INT_004" "Richmond Road - Benson Town" (13.0269, 80.2527)),
       ("INT_005", mkDefaultIntersection "INT_005" "Whitefield - Varthur Road Junction" (13.0249, 80.3015))]
    coordination_offsets := []
    optimization_mode := "balanced" }

theorem dictGet_dictSet {α : Type} (l : List (String × α)) (k k' : String) (v : α) :
    dictGet (dictSet l k v) k' = if k' = k then some v else dictGet l k' := by
  induction l with
  | nil =>
    by_cases h : k' = k <;> simp [dictSet, dictGet, h]
  | cons hd tl ih =>
    obtain ⟨a, w⟩ := hd
    by_cases hka : k = a
    · subst hka
      by_cases h : k' = k <;> simp [dictSet, dictGet, h]
    · by_cases h : k' = a
      · subst h
        simp [dictSet, dictGet, hka, Ne.symm hka]
      · simp [dictSet, dictGet, hka, h, ih]

theorem pyInt_eq_floor {x : ℚ} (hx : 0 ≤ x) : pyInt x = ⌊x⌋ := by
  simp [pyInt, not_lt.mpr hx]

theorem pyInt_mono {x y : ℚ} (hx : 0 ≤ x) (hxy : x ≤ y) : pyInt x ≤ pyInt y := by
  rw [pyInt_eq_floor hx, pyInt_eq_floor (hx.trans hxy)]
  exact Int.floor_le_floor hxy

theorem clamp_green_lb (x : ℚ) : (15 : ℚ) ≤ max 15 (min 80 x) := le_max_left _ _

theorem clamp_green_ub (x : ℚ) : max 15 (min 80 x) ≤ 80 :=
  max_le (by norm_num) (min_le_left _ _)

theorem pyInt_clamp_lb (x : ℚ) : 15 ≤ pyInt (max 15 (min 80 x)) := by
  rw [pyInt_eq_floor (le_trans (by norm_num) (clamp_green_lb x))]
  exact Int.le_floor.mpr (by exact_mod_cast clamp_green_lb x)

theorem pyInt_clamp_ub (x : ℚ) : pyInt (max 15 (min 80 x)) ≤ 80 := by
  rw [pyInt_eq_floor (le_trans (by norm_num) (clamp_green_lb x))]
  have h := Int.floor_le_floor (clamp_green_ub x)
  simpa using h

/-- Truncating a green time `g ∈ [15, 80]` and the float red time
`120 - g - 5` separately loses the fractional parts: the two stored
integers sum to 115 when `g` is an integer and to 114 otherwise. -/
theorem pyInt_green_red_sum (x : ℚ) :
    pyInt (max 15 (min 80 x)) + pyInt ((120 : ℚ) - max 15 (min 80 x) - 5) = 114 ∨
    pyInt (max 15 (min 80 x)) + pyInt ((120 : ℚ) - max 15 (min 80 x) - 5) = 115 := by
  set g : ℚ := max 15 (min 80 x) with hg
  have hg0 : (0 : ℚ) ≤ g := le_trans (by norm_num) (clamp_green_lb x)
  have hg80 : g ≤ 80 := clamp_green_ub x
  have hr0 : (0 : ℚ) ≤ 120 - g - 5 := by linarith
  rw [pyInt_eq_floor hg0, pyInt_eq_floor hr0]
  have he : (120 : ℚ) - g - 5 = ((115 : ℤ) : ℚ) + -g := by push_cast; ring
  rw [he, Int.floor_int_add, Int.floor_neg]
  have h1 := Int.ceil_le_floor_add_one g
  have h2 := Int.floor_le_ceil g
  omega

/-- C2 (confirmed): for every input triple the Priority Classifier returns
exactly one of the four tiers by the top-down cascade (critical, then high,
then normal, else low), and the Scenario-A input — queues
north 35 / south 25 / east 20 / west 28, congestion 53, aqi 120 —
classifies as "high". -/
theorem determine_priority_cascade (congestion : ℚ) (aqi max_queue : ℤ) :
    (determine_priority congestion aqi max_queue = "critical" ↔
      (congestion > 70 ∨ aqi > 150 ∨ max_queue > 50)) ∧
    (determine_priority congestion aqi max_queue = "high" ↔
      (¬(congestion > 70 ∨ aqi > 150 ∨ max_queue > 50) ∧
        (congestion > 50 ∨ aqi > 100 ∨ max_queue > 30))) ∧
    (determine_priority congestion aqi max_queue = "normal" ↔
      (¬(congestion > 70 ∨ aqi > 150 ∨ max_queue > 50) ∧
        ¬(congestion > 50 ∨ aqi > 100 ∨ max_queue > 30) ∧
        (congestion > 30 ∨ aqi > 50))) ∧
    (determine_priority congestion aqi max_queue = "low" ↔
      (¬(congestion > 70 ∨ aqi > 150 ∨ max_queue > 50) ∧
        ¬(congestion > 50 ∨ aqi > 100 ∨ max_queue > 30) ∧
        ¬(congestion > 30 ∨ aqi > 50))) ∧
    (determine_priority congestion aqi max_queue = "critical" ∨
      determine_priority congestion aqi max_queue = "high" ∨
      determine_priority congestion aqi max_queue = "normal" ∨
      determine_priority congestion aqi max_queue = "low") ∧
    determine_priority 53 120 (max (max (max 35 25) 20) 28) = "high" := by
  have scen : determine_priority 53 120 (max (max (max 35 25) 20) 28) = "high" := by
    with_unfolding_all decide
  refine ⟨?_, ?_, ?_, ?_, ?_, scen⟩ <;>
  · unfold determine_priority
    split_ifs with h1 h2 h3 <;> simp_all

/-- Traffic payload used for the C1 counterexample: queues 1/1/1/0,
nominal speed, congestion and AQI. -/
def c1Traffic : TrafficData :=
  { queues := some { north := some 1, south := some 1, east := some 1, west := some 0 }
    avg_speed := some 30
    congestion := some 50 }

/-- Reachable state for the C1 counterexample: the default registry after one
`update_intersection_data` call on INT_001. -/
def c1State : TrafficSignalCoordinator :=
  (update_intersection_data initialCoordinator "INT_001" c1Traffic 100).1

/-- C1 counterexample: with queues 1/1/1/0 the balanced base green for north
is 50·(0.5 + 1/3) = 41.67; the code truncates green and red separately, so
the reported (and stored) north timing is green 41, red 73, violating
red_time = 120 - green_time - 5 = 74. -/
theorem optimize_red_time_cex :
    (optimize_signal_timing c1State "INT_001").2.toOption.map
        (fun p => (p.signal_timings.north.green_time, p.signal_timings.north.red_time)) =
      some (41, 73) ∧
    (dictGet (optimize_signal_timing c1State "INT_001").1.intersections "INT_001").map
        (fun i => (i.signals.north.green_time, i.signals.north.red_time)) =
      some (41, 73) ∧
    (73 : ℤ) ≠ 120 - 41 - 5 := by
  refine ⟨by with_unfolding_all decide, by with_unfolding_all decide, by with_unfolding_all decide⟩

/-- C3 counterexample: a call supplying two IDs neither of which is known to
the registry returns a plan, not the "need at least 2 intersections" error —
the guard counts supplied IDs, not known ones. -/
theorem green_wave_unknown_ids_cex :
    (coordinate_green_wave initialCoordinator ["NOPE_A", "NOPE_B"] "corridor" 30).2.isOk =
      true ∧
    (coordinate_green_wave initialCoordinator ["NOPE_A", "NOPE_B"] "corridor" 30).2 ≠
      GWOutcome.errorDict "Need at least 2 intersections for green wave" := by
  refine ⟨by with_unfolding_all decide, by with_unfolding_all decide⟩

/-- C4 counterexample: supplying three IDs of which only two are known gives
stops_reduced_percent = 24/3 = 8 (not 12), emissions = 16/3 ≈ 5.3 (not 8),
and expected_travel_time_minutes = (1·(3-1)/30)·60 = 4 — the divisions use
the supplied count 3, and the travel time uses 3 - 1 hops, not the found
count 2 as the claim states (which would give (1·(2-1)/30)·60 = 2). -/
theorem green_wave_metrics_cex :
    (coordinate_green_wave initialCoordinator ["INT_001", "INT_002", "NOPE"] "x" 30).2.planOf.map
        (fun p => (p.stops_reduced_percent, p.emissions_reduced_percent,
          p.expected_travel_time_minutes)) =
      some (8, 53/10, 4) ∧
    (8 : ℚ) ≠ 12 ∧ (53/10 : ℚ) ≠ 8 ∧
    (4 : ℚ) ≠ (1 * ((2 : ℚ) - 1) / 30) * 60 := by
  refine ⟨by with_unfolding_all decide, by with_unfolding_all decide, by with_unfolding_all decide, by with_unfolding_all decide⟩

/-- C5 counterexample: `coordinate_green_wave` divides by `target_speed`
with no clamping, so with two known intersections and target speed 0 the
source raises ZeroDivisionError instead of returning a value. -/
theorem green_wave_zero_speed_cex :
    (coordinate_green_wave initialCoordinator ["INT_001", "INT_002"] "main_corridor" 0).2 =
      GWOutcome.raised := by
  with_unfolding_all decide

/-- Traffic payload used for the C10 counterexample (queues 1/1/1/0 on
INT_002). -/
def c10Traffic : TrafficData :=
  { queues := some { north := some 1, south := some 1, east := some 1, west := some 0 }
    avg_speed := some 30
    congestion := some 50 }

/-- Reachable state for the C10 counterexample. -/
def c10State : TrafficSignalCoordinator :=
  (update_intersection_data initialCoordinator "INT_002" c10Traffic 100).1

/-- C10 counterexample: after optimizing INT_002 with queues 1/1/1/0 the
stored north signal holds green 41, red 73, yellow 5, all-red 5, whose sum
is 124, not the 125 the claim asserts (truncating green and red separately
loses one second whenever the computed green is fractional). -/
theorem optimize_stored_sum_cex :
    (dictGet (optimize_signal_timing c10State "INT_002").1.intersections "INT_002").map
        (fun i => (i.signals.north.green_time, i.signals.north.red_time,
          i.signals.north.yellow_time, i.signals.north.all_red_time)) =
      some (41, 73, 5, 5) ∧
    (41 : ℤ) + 73 + 5 + 5 = 124 ∧ (124 : ℤ) ≠ 125 := by
  refine ⟨by with_unfolding_all decide, by with_unfolding_all decide, by with_unfolding_all decide⟩

theorem optimize_eq_known {c : TrafficSignalCoordinator} {id : String}
    {inter : Intersection} (h : dictGet c.intersections id = some inter) :
    optimize_signal_timing c id = optimizeKnown c id inter := by
  unfold optimize_signal_timing
  rw [h]

theorem optimizedTimings_get (inter : Intersection) (d : Direction) :
    (optimizedTimings inter).get d =
      mkTiming (paramsOf (strategyOf inter)).1 (totalQueueOf inter) (inter.queueOf d) := by
  cases d <;> rfl

theorem optimizedIntersection_signal (inter : Intersection) (d : Direction) :
    (optimizedIntersection inter).signals.get d =
      updSig (inter.signals.get d) ((optimizedTimings inter).get d) := by
  cases d <;> rfl

theorem mkTiming_green_lb (bg T q : ℤ) : 15 ≤ (mkTiming bg T q).green_time :=
  pyInt_clamp_lb _

theorem mkTiming_green_ub (bg T q : ℤ) : (mkTiming bg T q).green_time ≤ 80 :=
  pyInt_clamp_ub _

theorem mkTiming_sum (bg T q : ℤ) :
    (mkTiming bg T q).green_time + (mkTiming bg T q).red_time = 114 ∨
    (mkTiming bg T q).green_time + (mkTiming bg T q).red_time = 115 :=
  pyInt_green_red_sum ((bg : ℚ) * (1/2 + (q : ℚ) / (T : ℚ)))

/-- The pre-truncation float green `adjusted_green` of line 316, as a
value: the clamp of `base_green * (0.5 + queue/total)` before `int()` is
applied. -/
def adjustedGreen (base_green total_queue q : ℤ) : ℚ :=
  max 15 (min 80 ((base_green : ℚ) * (1/2 + (q : ℚ) / (total_queue : ℚ))))

theorem mkTiming_green_eq (bg T q : ℤ) :
    (mkTiming bg T q).green_time = pyInt (adjustedGreen bg T q) := rfl

theorem mkTiming_red_eq (bg T q : ℤ) :
    (mkTiming bg T q).red_time = pyInt ((120 : ℚ) - adjustedGreen bg T q - 5) := rfl

/-- The separately truncated green/red pair sums to 115 exactly when the
pre-truncation green is an integer. -/
theorem pyInt_clamp_sum_eq_115_iff (x : ℚ) :
    pyInt (max 15 (min 80 x)) + pyInt ((120 : ℚ) - max 15 (min 80 x) - 5) = 115 ↔
      ∃ n : ℤ, max 15 (min 80 x) = (n : ℚ) := by
  set g : ℚ := max 15 (min 80 x) with hg
  have hg0 : (0 : ℚ) ≤ g := le_trans (by norm_num) (clamp_green_lb x)
  have hg80 : g ≤ 80 := clamp_green_ub x
  have hr0 : (0 : ℚ) ≤ 120 - g - 5 := by linarith
  rw [pyInt_eq_floor hg0, pyInt_eq_floor hr0]
  have he : (120 : ℚ) - g - 5 = ((115 : ℤ) : ℚ) + -g := by push_cast; ring
  rw [he, Int.floor_int_add, Int.floor_neg]
  constructor
  · intro hsum
    have h1 := Int.ceil_le_floor_add_one g
    have h2 := Int.floor_le_ceil g
    have hfc : ⌈g⌉ = ⌊g⌋ := by omega
    refine ⟨⌊g⌋, ?_⟩
    have hc := Int.le_ceil g
    rw [hfc] at hc
    exact le_antisymm hc (Int.floor_le g)
  · rintro ⟨n, hn⟩
    rw [hn, Int.floor_intCast, Int.ceil_intCast]
    ring

/-- Complement of the previous lemma: the sum is 114 exactly when the
pre-truncation green is not an integer. -/
theorem pyInt_clamp_sum_eq_114_iff (x : ℚ) :
    pyInt (max 15 (min 80 x)) + pyInt ((120 : ℚ) - max 15 (min 80 x) - 5) = 114 ↔
      ¬ ∃ n : ℤ, max 15 (min 80 x) = (n : ℚ) := by
  have hd := pyInt_green_red_sum x
  have h115 := pyInt_clamp_sum_eq_115_iff x
  constructor
  · intro h114 hint
    have := h115.mpr hint
    omega
  · intro hnot
    rcases hd with h | h
    · exact h
    · exact absurd (h115.mp h) hnot

theorem mkTiming_sum_iff (bg T q : ℤ) :
    ((mkTiming bg T q).green_time + (mkTiming bg T q).red_time = 115 ↔
      ∃ n : ℤ, adjustedGreen bg T q = (n : ℚ)) ∧
    ((mkTiming bg T q).green_time + (mkTiming bg T q).red_time = 114 ↔
      ¬ ∃ n : ℤ, adjustedGreen bg T q = (n : ℚ)) :=
  ⟨pyInt_clamp_sum_eq_115_iff ((bg : ℚ) * (1/2 + (q : ℚ) / (T : ℚ))),
   pyInt_clamp_sum_eq_114_iff ((bg : ℚ) * (1/2 + (q : ℚ) / (T : ℚ)))⟩

/-- C1 (corrected, amended form): for every known intersection, after
`optimize_signal_timing` every direction's reported green time lies in
[15, 80] and agrees with the stored one, and the reported and stored red
time makes green + red equal to 115 exactly when the computed pre-truncation
real-valued green is an integer and to 114 otherwise — so not always
red = 120 - green - 5, because the source truncates green and red
independently. -/
theorem optimize_green_red_bounds (c : TrafficSignalCoordinator) (id : String)
    (inter : Intersection) (h : dictGet c.intersections id = some inter)
    (d : Direction) :
    ∃ plan, (optimize_signal_timing c id).2 = Except.ok plan ∧
      (∃ inter', dictGet (optimize_signal_timing c id).1.intersections id = some inter' ∧
        (inter'.signals.get d).green_time = (plan.signal_timings.get d).green_time ∧
        (inter'.signals.get d).red_time = (plan.signal_timings.get d).red_time) ∧
      15 ≤ (plan.signal_timings.get d).green_time ∧
      (plan.signal_timings.get d).green_time ≤ 80 ∧
      ((plan.signal_timings.get d).green_time + (plan.signal_timings.get d).red_time = 114 ∨
        (plan.signal_timings.get d).green_time + (plan.signal_timings.get d).red_time = 115) ∧
      ((plan.signal_timings.get d).green_time + (plan.signal_timings.get d).red_time = 115 ↔
        ∃ n : ℤ, adjustedGreen (paramsOf (strategyOf inter)).1 (totalQueueOf inter)
          (inter.queueOf d) = (n : ℚ)) ∧
      ((plan.signal_timings.get d).green_time + (plan.signal_timings.get d).red_time = 114 ↔
        ¬ ∃ n : ℤ, adjustedGreen (paramsOf (strategyOf inter)).1 (totalQueueOf inter)
          (inter.queueOf d) = (n : ℚ)) := by
  rw [optimize_eq_known h]
  refine ⟨optimizedPlan id inter, rfl, ⟨optimizedIntersection inter, ?_, ?_, ?_⟩,
    ?_, ?_, ?_, ?_, ?_⟩
  · simp [optimizeKnown, dictGet_dictSet]
  · rw [optimizedIntersection_signal]
    rfl
  · rw [optimizedIntersection_signal]
    rfl
  · rw [show (optimizedPlan id inter).signal_timings = optimizedTimings inter from rfl,
      optimizedTimings_get]
    exact mkTiming_green_lb _ _ _
  · rw [show (optimizedPlan id inter).signal_timings = optimizedTimings inter from rfl,
      optimizedTimings_get]
    exact mkTiming_green_ub _ _ _
  · rw [show (optimizedPlan id inter).signal_timings = optimizedTimings inter from rfl,
      optimizedTimings_get]
    exact mkTiming_sum _ _ _
  · rw [show (optimizedPlan id inter).signal_timings = optimizedTimings inter from rfl,
      optimizedTimings_get]
    exact (mkTiming_sum_iff _ _ _).1
  · rw [show (optimizedPlan id inter).signal_timings = optimizedTimings inter from rfl,
      optimizedTimings_get]
    exact (mkTiming_sum_iff _ _ _).2

/-- C1 witness: the theorem instantiated at the default registry's INT_001
and the north direction. -/
theorem optimize_green_red_bounds_witness :
    ∃ plan, (optimize_signal_timing initialCoordinator "INT_001").2 = Except.ok plan ∧
      (∃ inter', dictGet (optimize_signal_timing initialCoordinator "INT_001").1.intersections
          "INT_001" = some inter' ∧
        (inter'.signals.get Direction.north).green_time =
          (plan.signal_timings.get Direction.north).green_time ∧
        (inter'.signals.get Direction.north).red_time =
          (plan.signal_timings.get Direction.north).red_time) ∧
      15 ≤ (plan.signal_timings.get Direction.north).green_time ∧
      (plan.signal_timings.get Direction.north).green_time ≤ 80 ∧
      ((plan.signal_timings.get Direction.north).green_time +
          (plan.signal_timings.get Direction.north).red_time = 114 ∨
        (plan.signal_timings.get Direction.north).green_time +
          (plan.signal_timings.get Direction.north).red_time = 115) ∧
      ((plan.signal_timings.get Direction.north).green_time +
          (plan.signal_timings.get Direction.north).red_time = 115 ↔
        ∃ n : ℤ, adjustedGreen
          (paramsOf (strategyOf (mkDefaultIntersection "INT_001"
            "MG Road - Brigade Road" (13.0351, 80.2664)))).1
          (totalQueueOf (mkDefaultIntersection "INT_001" "MG Road - Brigade Road"
            (13.0351, 80.2664)))
          ((mkDefaultIntersection "INT_001" "MG Road - Brigade Road"
            (13.0351, 80.2664)).queueOf Direction.north) = (n : ℚ)) ∧
      ((plan.signal_timings.get Direction.north).green_time +
          (plan.signal_timings.get Direction.north).red_time = 114 ↔
        ¬ ∃ n : ℤ, adjustedGreen
          (paramsOf (strategyOf (mkDefaultIntersection "INT_001"
            "MG Road - Brigade Road" (13.0351, 80.2664)))).1
          (totalQueueOf (mkDefaultIntersection "INT_001" "MG Road - Brigade Road"
            (13.0351, 80.2664)))
          ((mkDefaultIntersection "INT_001" "MG Road - Brigade Road"
            (13.0351, 80.2664)).queueOf Direction.north) = (n : ℚ)) :=
  optimize_green_red_bounds initialCoordinator "INT_001"
    (mkDefaultIntersection "INT_001" "MG Road - Brigade Road" (13.0351, 80.2664))
    (by simp [initialCoordinator, dictGet]) Direction.north

/-- C5 (corrected, amended form): `optimize_signal_timing` clamps its only
denominator `total_queue` to at least 1 and always returns a value (the
error dict for an unknown ID, a plan otherwise); `coordinate_green_wave`
divides by `target_speed` with no clamping, and raises exactly when at
least two IDs are supplied and `target_speed` is zero. -/
theorem division_guards (c : TrafficSignalCoordinator) (id : String)
    (inter : Intersection) (ids : List String) (rn : String) (ts : ℚ) :
    1 ≤ totalQueueOf inter ∧
    ((optimize_signal_timing c id).2 = Except.error "Intersection not found" ∨
      ∃ plan, (optimize_signal_timing c id).2 = Except.ok plan) ∧
    ((coordinate_green_wave c ids rn ts).2 = GWOutcome.raised ↔
      (¬ ids.length < 2 ∧ ts = 0)) := by
  refine ⟨le_max_left _ _, ?_, ?_⟩
  · unfold optimize_signal_timing
    cases hh : dictGet c.intersections id with
    | none => exact Or.inl rfl
    | some inter' => exact Or.inr ⟨optimizedPlan id inter', rfl⟩
  · by_cases h2 : ids.length < 2
    · simp [coordinate_green_wave, h2]
    · by_cases hts : ts = 0 <;> simp [coordinate_green_wave, h2, hts]

/-- C3 (corrected, amended form): the "need at least 2 intersections" error
is returned exactly when the SUPPLIED list has fewer than two elements —
the guard counts supplied IDs, not IDs known to the registry; with two or
more supplied IDs and a nonzero target speed a plan is returned even when
no supplied ID is known. -/
theorem green_wave_needs_two_supplied (c : TrafficSignalCoordinator)
    (ids : List String) (rn : String) (ts : ℚ) :
    ((coordinate_green_wave c ids rn ts).2 =
        GWOutcome.errorDict "Need at least 2 intersections for green wave" ↔
      ids.length < 2) ∧
    (2 ≤ ids.length → ts ≠ 0 →
      ∃ plan, (coordinate_green_wave c ids rn ts).2 = GWOutcome.ok plan) := by
  by_cases h2 : ids.length < 2
  · constructor
    · simp [coordinate_green_wave, h2]
    · intro hlen
      omega
  · constructor
    · by_cases hts : ts = 0 <;> simp [coordinate_green_wave, h2, hts]
    · intro _ hts
      have hok : (coordinate_green_wave c ids rn ts).2.isOk = true := by
        simp [coordinate_green_wave, h2, hts, GWOutcome.isOk]
      cases hcg : (coordinate_green_wave c ids rn ts).2 with
      | errorDict m => rw [hcg] at hok; simp [GWOutcome.isOk] at hok
      | raised => rw [hcg] at hok; simp [GWOutcome.isOk] at hok
      | ok p => exact ⟨p, rfl⟩

/-- C3 witness: two known intersections and a nonzero speed produce a plan. -/
theorem green_wave_needs_two_supplied_witness :
    2 ≤ (["INT_001", "INT_002"] : List String).length ∧
    (30 : ℚ) ≠ 0 ∧
    ∃ plan, (coordinate_green_wave initialCoordinator ["INT_001", "INT_002"]
        "main_corridor" 30).2 = GWOutcome.ok plan :=
  ⟨by decide, by norm_num,
    (green_wave_needs_two_supplied initialCoordinator ["INT_001", "INT_002"]
        "main_corridor" 30).2 (by decide) (by norm_num)⟩

/-- Whether an ID is currently a key of the registry. -/
def isKnown (c : TrafficSignalCoordinator) (id : String) : Bool :=
  (dictGet c.intersections id).isSome

theorem isKnown_after_set {c : TrafficSignalCoordinator} {id : String}
    {inter' : Intersection} (hmem : (dictGet c.intersections id).isSome = true)
    (co' : List (String × ℤ)) (x : String) :
    isKnown { c with intersections := dictSet c.intersections id inter',
                     coordination_offsets := co' } x = isKnown c x := by
  simp only [isKnown, dictGet_dictSet]
  by_cases hx : x = id <;> simp [hx, hmem]

theorem gwLoop_totals (t : ℚ) (l : List String) :
    ∀ (i : ℕ) (c : TrafficSignalCoordinator) (offs : List (String × ℤ)) (st em : ℤ),
      (gwLoop t l i c offs st em).2.2.1 =
        st + 12 * ((l.filter (fun id => isKnown c id)).length : ℤ) ∧
      (gwLoop t l i c offs st em).2.2.2 =
        em + 8 * ((l.filter (fun id => isKnown c id)).length : ℤ) := by
  induction l with
  | nil =>
    intro i c offs st em
    simp [gwLoop]
  | cons a rest ih =>
    intro i c offs st em
    cases hh : dictGet c.intersections a with
    | none =>
      have hk : isKnown c a = false := by simp [isKnown, hh]
      simp only [gwLoop, hh]
      rw [(ih (i+1) c offs st em).1, (ih (i+1) c offs st em).2]
      simp [List.filter_cons, hk]
    | some inter =>
      have hk : isKnown c a = true := by simp [isKnown, hh]
      have hmem : (dictGet c.intersections a).isSome = true := by simp [hh]
      simp only [gwLoop, hh]
      set offset : ℤ := pyInt ((i : ℚ) * t) with hoff
      set inter' : Intersection :=
        { inter with signals := inter.signals.setAllAdaptiveOffsets offset } with hint
      set c' : TrafficSignalCoordinator :=
        { c with intersections := dictSet c.intersections a inter'
                 coordination_offsets := dictSet c.coordination_offsets a offset } with hc'
      have hfil :
          rest.filter (fun id => isKnown c' id) = rest.filter (fun id => isKnown c id) :=
        List.filter_congr (fun x _ => isKnown_after_set hmem _ x)
      rw [(ih (i+1) c' (dictSet offs a offset) (st + 12) (em + 8)).1,
        (ih (i+1) c' (dictSet offs a offset) (st + 12) (em + 8)).2, hfil]
      simp only [List.filter_cons, hk, if_true]
      constructor <;> · simp only [List.length_cons]; push_cast; ring

theorem gwLoop_untouched (t : ℚ) (l : List String) :
    ∀ (i : ℕ) (c : TrafficSignalCoordinator) (offs : List (String × ℤ)) (st em : ℤ)
      (id : String), (isKnown c id = false ∨ id ∉ l) →
      dictGet (gwLoop t l i c offs st em).1.intersections id =
        dictGet c.intersections id ∧
      dictGet (gwLoop t l i c offs st em).1.coordination_offsets id =
        dictGet c.coordination_offsets id ∧
      dictGet (gwLoop t l i c offs st em).2.1 id = dictGet offs id := by
  induction l with
  | nil =>
    intro i c offs st em id _
    simp [gwLoop]
  | cons a rest ih =>
    intro i c offs st em id hid
    cases hh : dictGet c.intersections a with
    | none =>
      simp only [gwLoop, hh]
      refine ih (i+1) c offs st em id ?_
      rcases hid with hid | hid
      · exact Or.inl hid
      · exact Or.inr (fun hmem => hid (List.mem_cons_of_mem a hmem))
    | some inter =>
      have hmem : (dictGet c.intersections a).isSome = true := by simp [hh]
      have hne : id ≠ a := by
        rcases hid with hid | hid
        · intro he
          subst he
          simp [isKnown, hh] at hid
        · intro he
          subst he
          exact hid (List.mem_cons_self _ _)
      simp only [gwLoop, hh]
      set offset : ℤ := pyInt ((i : ℚ) * t) with hoff
      set inter' : Intersection :=
        { inter with signals := inter.signals.setAllAdaptiveOffsets offset } with hint
      set c' : TrafficSignalCoordinator :=
        { c with intersections := dictSet c.intersections a inter'
                 coordination_offsets := dictSet c.coordination_offsets a offset } with hc'
      have hid' : isKnown c' id = false ∨ id ∉ rest := by
        rcases hid with hid | hid
        · exact Or.inl (by rw [isKnown_after_set hmem _ id]; exact hid)
        · exact Or.inr (fun hmem2 => hid (List.mem_cons_of_mem a hmem2))
      obtain ⟨h1, h2, h3⟩ := ih (i+1) c' (dictSet offs a offset) (st + 12) (em + 8) id hid'
      refine ⟨?_, ?_, ?_⟩
      · rw [h1, hc']
        simp [dictGet_dictSet, hne]
      · rw [h2, hc']
        simp [dictGet_dictSet, hne]
      · rw [h3]
        simp [dictGet_dictSet, hne]

theorem setAllAdaptiveOffsets_get (s : Signals) (o : ℤ) (d : Direction) :
    ((s.setAllAdaptiveOffsets o).get d).adaptive_offset = o := by
  cases d <;> rfl

theorem gwLoop_last (t : ℚ) (l : List String) :
    ∀ (i : ℕ) (c : TrafficSignalCoordinator) (offs : List (String × ℤ)) (st em : ℤ)
      (k : ℕ) (hk : k < l.length) (id : String), l.get ⟨k, hk⟩ = id →
      isKnown c id = true → id ∉ l.drop (k+1) →
      (∃ inter', dictGet (gwLoop t l i c offs st em).1.intersections id = some inter' ∧
        ∀ d : Direction, (inter'.signals.get d).adaptive_offset =
          pyInt (((i + k : ℕ) : ℚ) * t)) ∧
      dictGet (gwLoop t l i c offs st em).1.coordination_offsets id =
        some (pyInt (((i + k : ℕ) : ℚ) * t)) ∧
      dictGet (gwLoop t l i c offs st em).2.1 id =
        some (pyInt (((i + k : ℕ) : ℚ) * t)) := by
  induction l with
  | nil =>
    intro i c offs st em k hk
    exact absurd hk (by simp)
  | cons a rest ih =>
    intro i c offs st em k hk id hget hknown hlast
    cases k with
    | zero =>
      have ha : a = id := by simpa using hget
      subst ha
      have hrest : a ∉ rest := by simpa using hlast
      cases hh : dictGet c.intersections a with
      | none =>
        rw [isKnown, hh] at hknown
        simp at hknown
      | some inter =>
        have hmem : (dictGet c.intersections a).isSome = true := by simp [hh]
        simp only [gwLoop, hh]
        set offset : ℤ := pyInt ((i : ℚ) * t) with hoff
        set inter' : Intersection :=
          { inter with signals := inter.signals.setAllAdaptiveOffsets offset } with hint
        set c' : TrafficSignalCoordinator :=
          { c with intersections := dictSet c.intersections a inter'
                   coordination_offsets := dictSet c.coordination_offsets a offset } with hc'
        obtain ⟨h1, h2, h3⟩ :=
          gwLoop_untouched t rest (i+1) c' (dictSet offs a offset) (st + 12) (em + 8) a
            (Or.inr hrest)
        have hoffeq : pyInt (((i + 0 : ℕ) : ℚ) * t) = offset := by
          rw [hoff]
          norm_num
        refine ⟨⟨inter', ?_, ?_⟩, ?_, ?_⟩
        · rw [h1, hc']
          simp [dictGet_dictSet]
        · intro d
          rw [hint]
          rw [hoffeq]
          exact setAllAdaptiveOffsets_get inter.signals offset d
        · rw [h2, hc', hoffeq]
          simp [dictGet_dictSet]
        · rw [h3, hoffeq]
          simp [dictGet_dictSet]
    | succ k' =>
      have hk' : k' < rest.length := by simpa using hk
      have hget' : rest.get ⟨k', hk'⟩ = id := by
        rw [← hget]
        simp
      have hlast' : id ∉ rest.drop (k' + 1) := by
        intro hmem2
        exact hlast (by simpa using hmem2)
      have harith : ∀ j : ℕ, pyInt ((((j + 1) + k' : ℕ) : ℚ) * t) =
          pyInt (((j + (k' + 1) : ℕ) : ℚ) * t) := by
        intro j
        have : (j + 1) + k' = j + (k' + 1) := by omega
        rw [this]
      cases hh : dictGet c.intersections a with
      | none =>
        simp only [gwLoop, hh]
        have := ih (i+1) c offs st em k' hk' id hget' hknown hlast'
        rwa [harith i] at this
      | some inter =>
        have hmem : (dictGet c.intersections a).isSome = true := by simp [hh]
        simp only [gwLoop, hh]
        set offset : ℤ := pyInt ((i : ℚ) * t) with hoff
        set inter' : Intersection :=
          { inter with signals := inter.signals.setAllAdaptiveOffsets offset } with hint
        set c' : TrafficSignalCoordinator :=
          { c with intersections := dictSet c.intersections a inter'
                   coordination_offsets := dictSet c.coordination_offsets a offset } with hc'
        have hknown' : isKnown c' id = true := by
          rw [isKnown_after_set hmem _ id]
          exact hknown
        have := ih (i+1) c' (dictSet offs a offset) (st + 12) (em + 8) k' hk' id
          hget' hknown' hlast'
        rwa [harith i] at this

/-- C4 (corrected, amended form): for every successful call,
stops_reduced_percent = round1(12·K/M) and emissions_reduced_percent =
round1(8·K/M), where K counts the supplied positions whose ID is known and
M counts all supplied IDs — so they equal 12.0 and 8.0 only when every
supplied ID is found — and expected_travel_time_minutes =
round1((1·(M−1)/target_speed)·60) uses the supplied count M, not the
found count. -/
theorem green_wave_metrics (c : TrafficSignalCoordinator) (ids : List String)
    (rn : String) (ts : ℚ) (h2 : 2 ≤ ids.length) (hts : ts ≠ 0) :
    ∃ plan, (coordinate_green_wave c ids rn ts).2 = GWOutcome.ok plan ∧
      plan.stops_reduced_percent =
        pyRound1 ((12 * ((ids.filter (fun id => isKnown c id)).length : ℚ)) /
          (ids.length : ℚ)) ∧
      plan.emissions_reduced_percent =
        pyRound1 ((8 * ((ids.filter (fun id => isKnown c id)).length : ℚ)) /
          (ids.length : ℚ)) ∧
      plan.expected_travel_time_minutes =
        pyRound1 ((1 * ((ids.length : ℚ) - 1) / ts) * 60) := by
  have h2' : ¬ ids.length < 2 := by omega
  obtain ⟨hst, hem⟩ := gwLoop_totals ((1 / ts) * 60) ids 0 c ([]) 0 0
  simp only [coordinate_green_wave, if_neg h2', if_neg hts]
  refine ⟨_, rfl, ?_, ?_, ?_⟩
  · show pyRound1 _ = _
    rw [hst]
    congr 1
    push_cast
    ring
  · show pyRound1 _ = _
    rw [hem]
    congr 1
    push_cast
    ring
  · show pyRound1 ((1 * ((ids.length : ℚ) - 1) / ts) * 60) = _
    rfl

/-- C4 witness: the amended theorem at a call with all three supplied IDs
known, where the metrics are 12.0, 8.0 and round1((1·2/30)·60) = 4.0. -/
theorem green_wave_metrics_witness :
    ∃ plan, (coordinate_green_wave initialCoordinator ["INT_001", "INT_002", "INT_003"]
        "corr" 30).2 = GWOutcome.ok plan ∧
      plan.stops_reduced_percent =
        pyRound1 ((12 * ((["INT_001", "INT_002", "INT_003"].filter
          (fun id => isKnown initialCoordinator id)).length : ℚ)) / (3 : ℕ)) ∧
      plan.emissions_reduced_percent =
        pyRound1 ((8 * ((["INT_001", "INT_002", "INT_003"].filter
          (fun id => isKnown initialCoordinator id)).length : ℚ)) / (3 : ℕ)) ∧
      plan.expected_travel_time_minutes =
        pyRound1 ((1 * (((3 : ℕ) : ℚ) - 1) / 30) * 60) :=
  green_wave_metrics initialCoordinator ["INT_001", "INT_002", "INT_003"] "corr" 30
    (by decide) (by norm_num)

/-- C7 (confirmed): for every call with target_speed > 0 (and at least two
supplied IDs, so that a plan is produced): the known intersection at
position k of the supplied list — every position counts, known or not, and
k's entry is read off at its last occurrence — ends with offset
⌊k · t⌋ for t = (1/target_speed)·60 written to all four of its signals'
adaptive_offset fields, to the coordination_offsets side table and to the
plan's offsets dict; unknown IDs are silently skipped and absent from the
offsets dict; the offset formula is non-decreasing in the position and is 0
at position 0. -/
theorem green_wave_offsets (c : TrafficSignalCoordinator) (ids : List String)
    (rn : String) (ts : ℚ) (hts : 0 < ts) (h2 : 2 ≤ ids.length) :
    ∃ plan, (coordinate_green_wave c ids rn ts).2 = GWOutcome.ok plan ∧
      (∀ (k : ℕ) (hk : k < ids.length) (id : String), ids.get ⟨k, hk⟩ = id →
        isKnown c id = true → id ∉ ids.drop (k+1) →
        dictGet plan.offsets_seconds id = some (pyInt ((k : ℚ) * ((1 / ts) * 60))) ∧
        dictGet (coordinate_green_wave c ids rn ts).1.coordination_offsets id =
          some (pyInt ((k : ℚ) * ((1 / ts) * 60))) ∧
        ∃ inter', dictGet (coordinate_green_wave c ids rn ts).1.intersections id =
            some inter' ∧
          ∀ d : Direction, (inter'.signals.get d).adaptive_offset =
            pyInt ((k : ℚ) * ((1 / ts) * 60))) ∧
      (∀ id : String, isKnown c id = false → dictGet plan.offsets_seconds id = none) ∧
      (∀ k k' : ℕ, k ≤ k' →
        pyInt ((k : ℚ) * ((1 / ts) * 60)) ≤ pyInt ((k' : ℚ) * ((1 / ts) * 60))) ∧
      pyInt (((0 : ℕ) : ℚ) * ((1 / ts) * 60)) = 0 := by
  have h2' : ¬ ids.length < 2 := by omega
  have hts' : ts ≠ 0 := ne_of_gt hts
  have htpos : (0 : ℚ) < (1 / ts) * 60 := by positivity
  simp only [coordinate_green_wave, if_neg h2', if_neg hts']
  refine ⟨_, rfl, ?_, ?_, ?_, ?_⟩
  · intro k hk id hget hknown hlast
    obtain ⟨⟨inter', hI, hsig⟩, hco, hoffs⟩ :=
      gwLoop_last ((1 / ts) * 60) ids 0 c ([]) 0 0 k hk id hget hknown hlast
    simp only [Nat.zero_add] at hsig hco hoffs
    exact ⟨hoffs, hco, inter', hI, hsig⟩
  · intro id hku
    obtain ⟨_, _, h3⟩ :=
      gwLoop_untouched ((1 / ts) * 60) ids 0 c ([]) 0 0 id (Or.inl hku)
    rw [h3]
    rfl
  · intro k k' hkk
    refine pyInt_mono (by positivity) ?_
    have hc : (k : ℚ) ≤ (k' : ℚ) := by exact_mod_cast hkk
    exact mul_le_mul_of_nonneg_right hc (le_of_lt htpos)
  · norm_num [pyInt]

/-- C7 witness: the theorem at the default registry with the corridor
INT_001 → INT_003 → INT_005 and target speed 30 km/h. -/
theorem green_wave_offsets_witness :
    ∃ plan, (coordinate_green_wave initialCoordinator ["INT_001", "INT_003", "INT_005"]
        "Main Corridor - MG Road" 30).2 = GWOutcome.ok plan ∧
      (∀ (k : ℕ) (hk : k < (["INT_001", "INT_003", "INT_005"] : List String).length)
        (id : String), (["INT_001", "INT_003", "INT_005"] : List String).get ⟨k, hk⟩ = id →
        isKnown initialCoordinator id = true →
        id ∉ (["INT_001", "INT_003", "INT_005"] : List String).drop (k+1) →
        dictGet plan.offsets_seconds id =
          some (pyInt ((k : ℚ) * ((1 / (30 : ℚ)) * 60))) ∧
        dictGet (coordinate_green_wave initialCoordinator
            ["INT_001", "INT_003", "INT_005"]
            "Main Corridor - MG Road" 30).1.coordination_offsets id =
          some (pyInt ((k : ℚ) * ((1 / (30 : ℚ)) * 60))) ∧
        ∃ inter', dictGet (coordinate_green_wave initialCoordinator
            ["INT_001", "INT_003", "INT_005"]
            "Main Corridor - MG Road" 30).1.intersections id = some inter' ∧
          ∀ d : Direction, (inter'.signals.get d).adaptive_offset =
            pyInt ((k : ℚ) * ((1 / (30 : ℚ)) * 60))) ∧
      (∀ id : String, isKnown initialCoordinator id = false →
        dictGet plan.offsets_seconds id = none) ∧
      (∀ k k' : ℕ, k ≤ k' →
        pyInt ((k : ℚ) * ((1 / (30 : ℚ)) * 60)) ≤
          pyInt ((k' : ℚ) * ((1 / (30 : ℚ)) * 60))) ∧
      pyInt (((0 : ℕ) : ℚ) * ((1 / (30 : ℚ)) * 60)) = 0 :=
  green_wave_offsets initialCoordinator ["INT_001", "INT_003", "INT_005"]
    "Main Corridor - MG Road" 30 (by norm_num) (by decide)

/-- Modelled from the spec wording of C6: the ordered strategy decision
table ("Evaluate AQI>150∧congestion>60 first, then congestion>60 alone,
then AQI>100, else balanced — first match wins"). -/
def specStrategyTable (aqi : ℤ) (congestion : ℚ) : String :=
  if aqi > 150 ∧ congestion > 60 then "emission_priority"
  else if congestion > 60 then "flow_priority"
  else if aqi > 100 then "emission_priority"
  else "balanced"

/-- Modelled from the spec wording of C6: the fixed per-strategy constants
(base_green, emission_reduction, flow_improvement). -/
def specStrategyConstants (strategy : String) : ℤ × ℤ × ℤ :=
  if strategy = "emission_priority" then (70, 18, -5)
  else if strategy = "flow_priority" then (60, 5, 15)
  else (50, 10, 8)

theorem paramsOf_agrees (s : String) :
    (paramsOf s).1 = (specStrategyConstants s).1 ∧
    (paramsOf s).2.2.1 = (specStrategyConstants s).2.1 ∧
    (paramsOf s).2.2.2 = (specStrategyConstants s).2.2 := by
  by_cases h1 : s = "emission_priority"
  · simp [paramsOf, specStrategyConstants, h1]
  · by_cases h2 : s = "flow_priority" <;> simp [paramsOf, specStrategyConstants, h1, h2]

/-- C6 (confirmed): for every known intersection, `optimize_signal_timing`
selects its strategy by the ordered decision table — emission_priority if
aqi > 150 and congestion > 60, else flow_priority if congestion > 60, else
emission_priority if aqi > 100, else balanced — and reports the fixed
per-strategy constants: emission_reduction and flow_improvement of (18, -5),
(5, 15) or (10, 8), with base green 70, 60 or 50 feeding every direction's green-time
computation. -/
theorem optimize_strategy_table (c : TrafficSignalCoordinator) (id : String)
    (inter : Intersection) (h : dictGet c.intersections id = some inter) :
    ∃ plan, (optimize_signal_timing c id).2 = Except.ok plan ∧
      plan.strategy = specStrategyTable inter.local_aqi inter.avg_congestion ∧
      plan.emission_reduction = (specStrategyConstants plan.strategy).2.1 ∧
      plan.flow_improvement = (specStrategyConstants plan.strategy).2.2 ∧
      (plan.strategy = "emission_priority" ∨ plan.strategy = "flow_priority" ∨
        plan.strategy = "balanced") ∧
      ∀ d : Direction, (plan.signal_timings.get d).green_time =
        (mkTiming (specStrategyConstants plan.strategy).1 (totalQueueOf inter)
          (inter.queueOf d)).green_time := by
  rw [optimize_eq_known h]
  refine ⟨optimizedPlan id inter, rfl, ?_, ?_, ?_, ?_, ?_⟩
  · rfl
  · exact (paramsOf_agrees _).2.1
  · exact (paramsOf_agrees _).2.2
  · show strategyOf inter = _ ∨ strategyOf inter = _ ∨ strategyOf inter = _
    unfold strategyOf
    split_ifs <;> simp
  · intro d
    show ((optimizedTimings inter).get d).green_time = _
    rw [optimizedTimings_get, (paramsOf_agrees (strategyOf inter)).1]
    rfl

/-- C6 witness: the theorem at the default registry's INT_003 (nominal
metrics, so the balanced strategy row applies). -/
theorem optimize_strategy_table_witness :
    ∃ plan, (optimize_signal_timing initialCoordinator "INT_003").2 = Except.ok plan ∧
      plan.strategy = specStrategyTable
        (mkDefaultIntersection "INT_003" "Connaught Place - Residency Road"
          (13.0309, 80.2614)).local_aqi
        (mkDefaultIntersection "INT_003" "Connaught Place - Residency Road"
          (13.0309, 80.2614)).avg_congestion ∧
      plan.emission_reduction = (specStrategyConstants plan.strategy).2.1 ∧
      plan.flow_improvement = (specStrategyConstants plan.strategy).2.2 ∧
      (plan.strategy = "emission_priority" ∨ plan.strategy = "flow_priority" ∨
        plan.strategy = "balanced") ∧
      ∀ d : Direction, (plan.signal_timings.get d).green_time =
        (mkTiming (specStrategyConstants plan.strategy).1
          (totalQueueOf (mkDefaultIntersection "INT_003"
            "Connaught Place - Residency Road" (13.0309, 80.2614)))
          ((mkDefaultIntersection "INT_003" "Connaught Place - Residency Road"
            (13.0309, 80.2614)).queueOf d)).green_time :=
  optimize_strategy_table initialCoordinator "INT_003"
    (mkDefaultIntersection "INT_003" "Connaught Place - Residency Road" (13.0309, 80.2614))
    (by simp [initialCoordinator, dictGet])

/-- C8 (confirmed): `update_intersection_data` returns false and leaves the
whole registry unchanged when the ID is unknown (it never creates an
intersection); when the ID is known it returns true, overwrites exactly the
four queue fields, avg_speed, avg_congestion and local_aqi of that
intersection, and recomputes its priority tier with the Priority Classifier
on (congestion, aqi, max of the four queues); every other field — identity,
coordinates, the whole signals table, every other registry entry, and the
other coordinator fields — is unchanged. -/
theorem update_contract (c : TrafficSignalCoordinator) (id : String)
    (td : TrafficData) (p : ℤ) :
    (dictGet c.intersections id = none → update_intersection_data c id td p = (c, false)) ∧
    (∀ inter, dictGet c.intersections id = some inter →
      (update_intersection_data c id td p).2 = true ∧
      (update_intersection_data c id td p).1.city_name = c.city_name ∧
      (update_intersection_data c id td p).1.coordination_offsets =
        c.coordination_offsets ∧
      (update_intersection_data c id td p).1.optimization_mode = c.optimization_mode ∧
      (∀ id', id' ≠ id →
        dictGet (update_intersection_data c id td p).1.intersections id' =
          dictGet c.intersections id') ∧
      ∃ inter', dictGet (update_intersection_data c id td p).1.intersections id =
          some inter' ∧
        inter'.queue_length_north = td.qNorth ∧
        inter'.queue_length_south = td.qSouth ∧
        inter'.queue_length_east = td.qEast ∧
        inter'.queue_length_west = td.qWest ∧
        inter'.avg_speed = td.avg_speed.getD 30 ∧
        inter'.avg_congestion = td.congestion.getD 50 ∧
        inter'.local_aqi = p ∧
        inter'.priority_level = determine_priority (td.congestion.getD 50) p
          (max (max (max td.qNorth td.qSouth) td.qEast) td.qWest) ∧
        inter'.intersection_id = inter.intersection_id ∧
        inter'.name = inter.name ∧
        inter'.coordinates = inter.coordinates ∧
        inter'.signals = inter.signals) := by
  constructor
  · intro h
    unfold update_intersection_data
    rw [h]
  · intro inter h
    simp only [update_intersection_data, h]
    refine ⟨trivial, trivial, trivial, trivial, ?_, ?_⟩
    · intro id' hne
      rw [dictGet_dictSet]
      simp [hne]
    · refine ⟨{ inter with
          queue_length_north := td.qNorth
          queue_length_south := td.qSouth
          queue_length_east := td.qEast
          queue_length_west := td.qWest
          avg_speed := td.avg_speed.getD 30
          avg_congestion := td.congestion.getD 50
          local_aqi := p
          priority_level := determine_priority (td.congestion.getD 50) p
            (max (max (max td.qNorth td.qSouth) td.qEast) td.qWest) },
        ?_, rfl, rfl, rfl, rfl, rfl, rfl, rfl, rfl, rfl, rfl, rfl, rfl⟩
      rw [dictGet_dictSet]
      simp

/-- Traffic payload used by the C8 witness. -/
def c8Traffic : TrafficData :=
  { queues := some { north := some 12, south := some 7, east := none, west := some 3 }
    avg_speed := some 24
    congestion := some 61 }

/-- C8 witness: the unknown branch at ID "NOPE" and the known branch at the
default registry's INT_004. -/
theorem update_contract_witness :
    (update_intersection_data initialCoordinator "NOPE" c8Traffic 130 =
      (initialCoordinator, false)) ∧
    ((update_intersection_data initialCoordinator "INT_004" c8Traffic 130).2 = true ∧
      ∃ inter', dictGet (update_intersection_data initialCoordinator "INT_004"
          c8Traffic 130).1.intersections "INT_004" = some inter' ∧
        inter'.queue_length_north = c8Traffic.qNorth ∧
        inter'.local_aqi = 130 ∧
        inter'.priority_level = determine_priority (c8Traffic.congestion.getD 50) 130
          (max (max (max c8Traffic.qNorth c8Traffic.qSouth) c8Traffic.qEast)
            c8Traffic.qWest) ∧
        inter'.signals = (mkDefaultIntersection "INT_004" "Richmond Road - Benson Town"
          (13.0269, 80.2527)).signals) := by
  have hk : dictGet initialCoordinator.intersections "INT_004" =
      some (mkDefaultIntersection "INT_004" "Richmond Road - Benson Town"
        (13.0269, 80.2527)) := by
    simp [initialCoordinator, dictGet]
  have hu : dictGet initialCoordinator.intersections "NOPE" = none := by
    simp [initialCoordinator, dictGet]
  obtain ⟨h2, _, _, _, _, inter', hI, hq, _, _, _, _, _, haqi, hprio, _, _, _, hsig⟩ :=
    (update_contract initialCoordinator "INT_004" c8Traffic 130).2
      (mkDefaultIntersection "INT_004" "Richmond Road - Benson Town" (13.0269, 80.2527)) hk
  exact ⟨(update_contract initialCoordinator "NOPE" c8Traffic 130).1 hu,
    h2, inter', hI, hq, haqi, hprio, hsig⟩

/-- Traffic payload for the C9 scenario: north queue 120, everything else
nominal. -/
def c9Traffic : TrafficData :=
  { queues := some { north := some 120, south := some 0, east := some 0, west := some 0 }
    avg_speed := some 30
    congestion := some 50 }

/-- Reachable state for the C9 scenario: the default registry after
updating INT_001 with a north queue of 120. -/
def c9State : TrafficSignalCoordinator :=
  (update_intersection_data initialCoordinator "INT_001" c9Traffic 100).1

/-- C9 (confirmed): `detect_conflicts` returns the empty list for an
unknown intersection ID (not an error), never mutates any registry state,
and on a known intersection with a single queue of 120 and every other
field nominal it returns exactly one finding — a queue_overflow of
severity "high", since 120 ≤ 150. -/
theorem detect_contract (c : TrafficSignalCoordinator) (id : String) :
    (dictGet c.intersections id = none → detect_conflicts c id = (c, [])) ∧
    (detect_conflicts c id).1 = c ∧
    (detect_conflicts c9State "INT_001").2 = [overflowFinding "north" 120] ∧
    (overflowFinding "north" 120).type = "queue_overflow" ∧
    (overflowFinding "north" 120).severity = "high" := by
  refine ⟨?_, ?_, ?_, rfl, ?_⟩
  · intro h
    unfold detect_conflicts
    rw [h]
  · unfold detect_conflicts
    cases hh : dictGet c.intersections id <;> rfl
  · with_unfolding_all decide
  · with_unfolding_all decide

/-- C9 witness: the unknown-ID branch at "NOPE" on the default registry. -/
theorem detect_contract_witness :
    detect_conflicts initialCoordinator "NOPE" = (initialCoordinator, []) ∧
    (detect_conflicts initialCoordinator "NOPE").1 = initialCoordinator :=
  ⟨(detect_contract initialCoordinator "NOPE").1 (by simp [initialCoordinator, dictGet]),
    (detect_contract initialCoordinator "NOPE").2.1⟩

/-- C10 (corrected, amended form): `optimize_signal_timing` mutates only
the green_time, red_time and cycle_time of each direction's stored signal —
yellow_time, all_red_time, adaptive_offset, current_phase, the green
bounds, identity fields, every intersection metric field, every other
registry entry and the other coordinator fields are unchanged — and the
returned plan reports all_red_time = 3 while the stored yellow and all-red
keep their previous values; when those stored values are the initial 5 and
5, the stored sum green+red+yellow+all_red is 125 exactly when the computed
pre-truncation real-valued green is an integer and 124 otherwise, not
always 125. -/
theorem optimize_frame (c : TrafficSignalCoordinator) (id : String)
    (inter : Intersection) (h : dictGet c.intersections id = some inter) :
    (optimize_signal_timing c id).1.city_name = c.city_name ∧
    (optimize_signal_timing c id).1.coordination_offsets = c.coordination_offsets ∧
    (optimize_signal_timing c id).1.optimization_mode = c.optimization_mode ∧
    (∀ id', id' ≠ id →
      dictGet (optimize_signal_timing c id).1.intersections id' =
        dictGet c.intersections id') ∧
    (∃ inter', dictGet (optimize_signal_timing c id).1.intersections id = some inter' ∧
      inter'.queue_length_north = inter.queue_length_north ∧
      inter'.queue_length_south = inter.queue_length_south ∧
      inter'.queue_length_east = inter.queue_length_east ∧
      inter'.queue_length_west = inter.queue_length_west ∧
      inter'.avg_speed = inter.avg_speed ∧
      inter'.avg_congestion = inter.avg_congestion ∧
      inter'.local_aqi = inter.local_aqi ∧
      inter'.priority_level = inter.priority_level ∧
      inter'.intersection_id = inter.intersection_id ∧
      inter'.name = inter.name ∧
      inter'.coordinates = inter.coordinates ∧
      (∀ d : Direction,
        (inter'.signals.get d).yellow_time = (inter.signals.get d).yellow_time ∧
        (inter'.signals.get d).all_red_time = (inter.signals.get d).all_red_time ∧
        (inter'.signals.get d).adaptive_offset = (inter.signals.get d).adaptive_offset ∧
        (inter'.signals.get d).current_phase = (inter.signals.get d).current_phase ∧
        (inter'.signals.get d).min_green = (inter.signals.get d).min_green ∧
        (inter'.signals.get d).max_green = (inter.signals.get d).max_green ∧
        (inter'.signals.get d).signal_id = (inter.signals.get d).signal_id ∧
        (inter'.signals.get d).time_in_phase = (inter.signals.get d).time_in_phase) ∧
      (∀ d : Direction, (inter.signals.get d).yellow_time = 5 →
        (inter.signals.get d).all_red_time = 5 →
        ((inter'.signals.get d).green_time + (inter'.signals.get d).red_time +
            (inter'.signals.get d).yellow_time + (inter'.signals.get d).all_red_time = 124 ∨
          (inter'.signals.get d).green_time + (inter'.signals.get d).red_time +
            (inter'.signals.get d).yellow_time + (inter'.signals.get d).all_red_time = 125) ∧
        ((inter'.signals.get d).green_time + (inter'.signals.get d).red_time +
            (inter'.signals.get d).yellow_time + (inter'.signals.get d).all_red_time = 125 ↔
          ∃ n : ℤ, adjustedGreen (paramsOf (strategyOf inter)).1 (totalQueueOf inter)
            (inter.queueOf d) = (n : ℚ)) ∧
        ((inter'.signals.get d).green_time + (inter'.signals.get d).red_time +
            (inter'.signals.get d).yellow_time + (inter'.signals.get d).all_red_time = 124 ↔
          ¬ ∃ n : ℤ, adjustedGreen (paramsOf (strategyOf inter)).1 (totalQueueOf inter)
            (inter.queueOf d) = (n : ℚ)))) ∧
    (∃ plan, (optimize_signal_timing c id).2 = Except.ok plan ∧
      ∀ d : Direction, (plan.signal_timings.get d).all_red_time = 3) := by
  rw [optimize_eq_known h]
  refine ⟨rfl, rfl, rfl, ?_, ?_, ?_⟩
  · intro id' hne
    show dictGet (dictSet c.intersections id (optimizedIntersection inter)) id' = _
    rw [dictGet_dictSet]
    simp [hne]
  · refine ⟨optimizedIntersection inter, ?_, rfl, rfl, rfl, rfl, rfl, rfl, rfl, rfl,
      rfl, rfl, rfl, ?_, ?_⟩
    · show dictGet (dictSet c.intersections id (optimizedIntersection inter)) id = _
      rw [dictGet_dictSet]
      simp
    · intro d
      rw [optimizedIntersection_signal]
      exact ⟨rfl, rfl, rfl, rfl, rfl, rfl, rfl, rfl⟩
    · intro d hy ha
      rw [optimizedIntersection_signal, optimizedTimings_get]
      have hgr : (updSig (inter.signals.get d)
          (mkTiming (paramsOf (strategyOf inter)).1 (totalQueueOf inter)
            (inter.queueOf d))).green_time =
          (mkTiming (paramsOf (strategyOf inter)).1 (totalQueueOf inter)
            (inter.queueOf d)).green_time := rfl
      have hrd : (updSig (inter.signals.get d)
          (mkTiming (paramsOf (strategyOf inter)).1 (totalQueueOf inter)
            (inter.queueOf d))).red_time =
          (mkTiming (paramsOf (strategyOf inter)).1 (totalQueueOf inter)
            (inter.queueOf d)).red_time := rfl
      have hye : (updSig (inter.signals.get d)
          (mkTiming (paramsOf (strategyOf inter)).1 (totalQueueOf inter)
            (inter.queueOf d))).yellow_time = (inter.signals.get d).yellow_time := rfl
      have har : (updSig (inter.signals.get d)
          (mkTiming (paramsOf (strategyOf inter)).1 (totalQueueOf inter)
            (inter.queueOf d))).all_red_time = (inter.signals.get d).all_red_time := rfl
      rw [hgr, hrd, hye, har, hy, ha]
      obtain ⟨h115, h114⟩ := mkTiming_sum_iff (paramsOf (strategyOf inter)).1
        (totalQueueOf inter) (inter.queueOf d)
      refine ⟨?_, ?_, ?_⟩
      · rcases mkTiming_sum (paramsOf (strategyOf inter)).1 (totalQueueOf inter)
            (inter.queueOf d) with hs | hs
        · left
          omega
        · right
          omega
      · constructor
        · intro hsum
          exact h115.mp (by omega)
        · intro hint
          have := h115.mpr hint
          omega
      · constructor
        · intro hsum
          exact h114.mp (by omega)
        · intro hint
          have := h114.mpr hint
          omega
  · refine ⟨optimizedPlan id inter, rfl, ?_⟩
    intro d
    show ((optimizedTimings inter).get d).all_red_time = 3
    rw [optimizedTimings_get]
    rfl

/-- C10 witness: the frame theorem at the default registry's INT_005. -/
theorem optimize_frame_witness :
    (optimize_signal_timing initialCoordinator "INT_005").1.city_name =
      initialCoordinator.city_name ∧
    (∃ inter', dictGet (optimize_signal_timing initialCoordinator
        "INT_005").1.intersections "INT_005" = some inter' ∧
      ∀ d : Direction,
        (inter'.signals.get d).yellow_time =
          ((mkDefaultIntersection "INT_005" "Whitefield - Varthur Road Junction"
            (13.0249, 80.3015)).signals.get d).yellow_time ∧
        (inter'.signals.get d).all_red_time =
          ((mkDefaultIntersection "INT_005" "Whitefield - Varthur Road Junction"
            (13.0249, 80.3015)).signals.get d).all_red_time ∧
        (inter'.signals.get d).adaptive_offset =
          ((mkDefaultIntersection "INT_005" "Whitefield - Varthur Road Junction"
            (13.0249, 80.3015)).signals.get d).adaptive_offset ∧
        (inter'.signals.get d).current_phase =
          ((mkDefaultIntersection "INT_005" "Whitefield - Varthur Road Junction"
            (13.0249, 80.3015)).signals.get d).current_phase ∧
        (inter'.signals.get d).min_green =
          ((mkDefaultIntersection "INT_005" "Whitefield - Varthur Road Junction"
            (13.0249, 80.3015)).signals.get d).min_green ∧
        (inter'.signals.get d).max_green =
          ((mkDefaultIntersection "INT_005" "Whitefield - Varthur Road Junction"
            (13.0249, 80.3015)).signals.get d).max_green ∧
        (inter'.signals.get d).signal_id =
          ((mkDefaultIntersection "INT_005" "Whitefield - Varthur Road Junction"
            (13.0249, 80.3015)).signals.get d).signal_id ∧
        (inter'.signals.get d).time_in_phase =
          ((mkDefaultIntersection "INT_005" "Whitefield - Varthur Road Junction"
            (13.0249, 80.3015)).signals.get d).time_in_phase) := by
  obtain ⟨h1, _, _, _, ⟨inter', hI, _, _, _, _, _, _, _, _, _, _, _, hsig, _⟩, _⟩ :=
    optimize_frame initialCoordinator "INT_005"
      (mkDefaultIntersection "INT_005" "Whitefield - Varthur Road Junction"
        (13.0249, 80.3015))
      (by simp [initialCoordinator, dictGet])
  exact ⟨h1, inter', hI, hsig⟩

/-- C5 witness: the guards theorem at the default registry, two known IDs
and target speed 0 (for which the raise-condition in the equivalence is
satisfied). -/
theorem division_guards_witness :
    1 ≤ totalQueueOf (mkDefaultIntersection "INT_001" "MG Road - Brigade Road"
      (13.0351, 80.2664)) ∧
    ((optimize_signal_timing initialCoordinator "INT_001").2 =
        Except.error "Intersection not found" ∨
      ∃ plan, (optimize_signal_timing initialCoordinator "INT_001").2 =
        Except.ok plan) ∧
    ((coordinate_green_wave initialCoordinator ["INT_001", "INT_002"]
        "main_corridor" 0).2 = GWOutcome.raised ↔
      (¬ (["INT_001", "INT_002"] : List String).length < 2 ∧ (0 : ℚ) = 0)) :=
  division_guards initialCoordinator "INT_001"
    (mkDefaultIntersection "INT_001" "MG Road - Brigade Road" (13.0351, 80.2664))
    ["INT_001", "INT_002"] "main_corridor" 0
